import Mathlib

/-!
Shallow embedding of the catalog search-and-normalization engine of
`video_search.py` (functions `load_json_data`, `safe_get`, `process_response`,
`extract_media_details`, `search_movies`, `search_series`, `parse_source` and
the per-source loop of `generate_html`), together with theorems settling the
specification claims about it.

Modelling conventions:
  * Python strings are `String`; `str.lower()` is `lowerString` (Python's
    lowercasing restricted to ASCII letters, which is all the code's lookup
    keys use); the Python substring test `a in b` is `strContains b a`.
  * Python dicts are association lists with first-binding-wins lookup.
  * Fallible operations return `Except Unit` or an explicit outcome type; a
    raised exception that the code does not catch is an `.error`/`.raised`
    value.
  * The remote HTTP boundary is a `Server` oracle mapping (genre id, page
    number) to a `FetchResult`; a response body is modelled after
    `response.json()` plus `process_response`, i.e. as the final list of
    items, with `none` standing for a `json.JSONDecodeError`.
  * The unbounded `while True:` page loop is given an explicit fuel
    parameter; theorems about terminating behaviours hypothesise enough fuel.
-/

/-- Python `str.lower()` on one character (ASCII range, as used by the
code's lookup keys). -/
def lowerChar (c : Char) : Char :=
  if 'A' ≤ c ∧ c ≤ 'Z' then Char.ofNat (c.toNat + 32) else c

/-- Python `str.lower()`. -/
def lowerString (s : String) : String :=
  ⟨s.data.map lowerChar⟩

/-- `needle` occurs as a contiguous run of `hay`. -/
def charsInfixOf (needle : List Char) : List Char → Bool
  | [] => needle.isEmpty
  | c :: rest => needle.isPrefixOf (c :: rest) || charsInfixOf needle rest

/-- Python membership test `needle in hay` on strings. -/
def strContains (hay needle : String) : Bool :=
  charsInfixOf needle.data hay.data

/-- A raw source entry as it can appear in a catalog item's `sources` list:
a bare URL string (legacy), a structured mapping whose fields are strings
(the `RawSource` shape `{quality: string, type: string, url: string}`, with
fields possibly absent and extra keys allowed), or any other Python value
(`None`, an integer, a list, a boolean). -/
inductive RawSource where
  | str (s : String)
  | dict (fields : List (String × String))
  | null
  | int (n : Int)
  | list (elems : List RawSource)
  | bool (b : Bool)

/-- The record returned by `parse_source` in the non-`None` case. -/
structure ParsedSource where
  type : String
  quality : String
  url : String
deriving DecidableEq

/-- `quality_mapping` from `parse_source`. -/
def quality_mapping : List (String × String) :=
  [("تیزر", "Trailer"),
   ("480 زیرنویس", "480p"),
   ("720 زیرنویس", "720p"),
   ("1080 زیرنویس", "1080p"),
   ("1080 FULLHD زیرنویس", "1080p")]

/-- `type_mapping` from `parse_source`. -/
def type_mapping : List (String × String) :=
  [("mp4", "stream"), ("mkv", "download")]

/-- Python `dict.get(key, default)` on a string-valued dict. -/
def dictGet (fields : List (String × String)) (key default : String) : String :=
  (fields.lookup key).getD default

/-- `parse_source` from `video_search.py`: a bare string becomes
`{type: unknown, quality: unknown, url: s}`; a dict is read with defaults and
run through the two lookup tables (the type table after lowercasing); any
other value yields `None`. -/
def parse_source : RawSource → Option ParsedSource
  | .str s => some ⟨"unknown", "unknown", s⟩
  | .dict fields =>
      let quality := dictGet fields "quality" "unknown"
      let source_type := dictGet fields "type" "unknown"
      let url := dictGet fields "url" ""
      some ⟨(type_mapping.lookup (lowerString source_type)).getD source_type,
            (quality_mapping.lookup quality).getD quality,
            url⟩
  | _ => none

/-- The dict that `parse_source` returns in Python, re-read as a raw source
(used to state idempotence of normalization). -/
def ParsedSource.toRaw (ps : ParsedSource) : RawSource :=
  .dict [("type", ps.type), ("quality", ps.quality), ("url", ps.url)]

/-- The `<a class="source" ...>` block `generate_html` emits for one parsed
source. -/
def source_html (ps : ParsedSource) : String :=
  "\n                    <a class=\"source\" href=\"" ++ ps.url ++
  "\" target=\"_blank\">\n                        <span class=\"source-type " ++
  ps.type ++ "\">" ++ lowerString ps.type ++ "</span>\n                        <span class=\"source-quality\">" ++
  ps.quality ++ "</span>\n                        " ++ ps.url ++
  "\n                    </a>\n                    "

/-- The per-source loop of `generate_html` (lines 422-432): each source is
passed through `parse_source` and rendered only when the result is truthy,
i.e. not `None`. -/
def sources_section (sources : List RawSource) : String :=
  sources.foldl
    (fun acc s =>
      match parse_source s with
      | some ps => acc ++ source_html ps
      | none => acc)
    ""

/-- A JSON value, for the two reference documents read by `load_json_data`. -/
inductive Json where
  | null
  | bool (b : Bool)
  | num (n : Int)
  | str (s : String)
  | arr (elems : List Json)
  | obj (fields : List (String × Json))

/-- A reference document on disk: `none` if the file is missing
(`FileNotFoundError`), `some none` if its text is not valid JSON
(`json.JSONDecodeError`), `some (some v)` if it parses to `v`. -/
abbrev RefDoc := Option (Option Json)

/-- `load_json_data` from `video_search.py`: opens and parses the genres
document, takes `.get('data', [])` on it, then does the same with the
countries document.  A missing file, unparseable text, or a parsed value
that is not a dict (whose `.get` raises `AttributeError`) escapes as an
uncaught exception, modelled `.error ()`. -/
def load_json_data (genresDoc countriesDoc : RefDoc) : Except Unit (Json × Json) :=
  match genresDoc with
  | none => .error ()
  | some none => .error ()
  | some (some g) =>
    match g with
    | .obj gfields =>
      match countriesDoc with
      | none => .error ()
      | some none => .error ()
      | some (some c) =>
        match c with
        | .obj cfields =>
            .ok ((gfields.lookup "data").getD (.arr []),
                 (cfields.lookup "data").getD (.arr []))
        | _ => .error ()
    | _ => .error ()

/-- A catalog item that is a Python dict, with the fields
`extract_media_details` and the search loops read.  Every scalar field is a
string defaulting to `""`: since `safe_get(item, key, '')` yields `''` both
when the key is absent and when it holds `''`, and Python truthiness treats
them alike, absent and empty coincide and a plain `String` field is a
faithful model.  `genres` is `some l` when the item carries a genre list `l`
and `none` when the key is absent or its value is not a list (both fail the
code's `genres and isinstance(genres, list)` test when `l = []` is also
counted, which the model checks separately).  `sources` is kept verbatim. -/
structure MediaItem where
  title : String := ""
  year : String := ""
  poster : String := ""
  sources : List RawSource := []
  description : String := ""
  originalName : String := ""
  imdb : String := ""
  rating : String := ""
  persianName : String := ""
  persian_title : String := ""
  genres : Option (List String) := none
  country : String := ""
  language : String := ""
  ageRating : String := ""
  format : String := ""
  quality : String := ""
  size : String := ""
  plot : String := ""
  summary : String := ""

/-- The record `extract_media_details` returns for a dict item. -/
structure MediaResult where
  title : String
  year : String
  genre : String
  type : String
  sources : List RawSource
  poster : String
  description : String

/-- The `details` list built by `extract_media_details` when the item has no
(non-empty) description: one formatted line per present-and-non-empty field,
in the source's fixed order. -/
def media_details_lines (m : MediaItem) (genre_title : String) : List String :=
  (if m.originalName ≠ "" then ["نام اصلی: " ++ m.originalName] else []) ++
  (let rating := if m.imdb ≠ "" then m.imdb else m.rating
   if rating ≠ "" then ["امتیاز: " ++ rating ++ "/ 10"] else []) ++
  (let persian_name := if m.persianName ≠ "" then m.persianName else m.persian_title
   if persian_name ≠ "" then ["نام پارسی: " ++ persian_name] else []) ++
  (if (m.genres.getD []) ≠ [] then
     ["ژانر: " ++ String.intercalate ", " (m.genres.getD [])]
   else if genre_title ≠ "" then ["ژانر: " ++ genre_title] else []) ++
  (if m.year ≠ "" then ["سال تولید: " ++ m.year] else []) ++
  (if m.country ≠ "" then ["محصول: " ++ m.country] else []) ++
  (if m.language ≠ "" then ["زبان: " ++ m.language] else []) ++
  (if m.ageRating ≠ "" then ["رده سنی: " ++ m.ageRating] else []) ++
  (if m.format ≠ "" then ["فرمت: " ++ m.format] else []) ++
  (if m.quality ≠ "" then ["کیفیت: " ++ m.quality] else []) ++
  (if m.size ≠ "" then ["حجم: " ++ m.size] else []) ++
  (let plot := if m.plot ≠ "" then m.plot else m.summary
   if plot ≠ "" then ["\nخلاصه داستان:\n" ++ plot] else [])

/-- `extract_media_details` from `video_search.py`.  The argument is
`none` when the Python value is not a dict (the `isinstance` guard).  For a
dict it copies `title`, `year`, `poster`, `sources`, takes the supplied
description when non-empty and otherwise joins the `details` lines with
newlines (leaving `''` when no detail line exists); `type` and `genre` come
from the caller. -/
def extract_media_details (media_item : Option MediaItem)
    (media_type genre_title : String) : Option MediaResult :=
  match media_item with
  | none => none
  | some m =>
    let description :=
      if m.description ≠ "" then m.description
      else
        let details := media_details_lines m genre_title
        if details ≠ [] then String.intercalate "\n" details else ""
    some { title := m.title, year := m.year, genre := genre_title,
           type := media_type, sources := m.sources, poster := m.poster,
           description := description }

/-- One optional description line, as the specification phrases it: the line
is present exactly when the field is non-empty. -/
def specLine (field rendered : String) : Option String :=
  if field ≠ "" then some rendered else none

/-- The synthesized description as the specification describes it: join, in
the fixed order original name, rating as `<value>/ 10`, localized name,
genre list joined by `", "` (else the caller's genre title), year, country,
language, age rating, format, quality, size, plot/summary block, exactly
those lines whose field is present and non-empty. -/
def specSynthDescription (m : MediaItem) (genre_title : String) : String :=
  let rating := if m.imdb ≠ "" then m.imdb else m.rating
  let persian_name := if m.persianName ≠ "" then m.persianName else m.persian_title
  let plot := if m.plot ≠ "" then m.plot else m.summary
  let lines : List String :=
    ([specLine m.originalName ("نام اصلی: " ++ m.originalName),
      specLine rating ("امتیاز: " ++ rating ++ "/ 10"),
      specLine persian_name ("نام پارسی: " ++ persian_name),
      (match m.genres with
       | some (g :: gs) => some ("ژانر: " ++ String.intercalate ", " (g :: gs))
       | _ => specLine genre_title ("ژانر: " ++ genre_title)),
      specLine m.year ("سال تولید: " ++ m.year),
      specLine m.country ("محصول: " ++ m.country),
      specLine m.language ("زبان: " ++ m.language),
      specLine m.ageRating ("رده سنی: " ++ m.ageRating),
      specLine m.format ("فرمت: " ++ m.format),
      specLine m.quality ("کیفیت: " ++ m.quality),
      specLine m.size ("حجم: " ++ m.size),
      specLine plot ("\nخلاصه داستان:\n" ++ plot)] : List (Option String)).reduceOption
  String.intercalate "\n" lines

/-- One entry of the genres reference list: `id` is `none` when the key is
absent, and `title` defaults to `''` as in `genre.get('title', '')`. -/
structure Genre where
  id : Option Int := none
  title : String := ""

/-- What one `requests.get` on a page URL yields: `netFail` when the call
raises (transport failure); otherwise a status code and a body, where the
body is `none` when `response.json()` raises `json.JSONDecodeError` and
otherwise the item list that `process_response` produces (an item is `none`
when it is not a dict). -/
inductive FetchResult where
  | success (status_code : Nat) (body : Option (List (Option MediaItem)))
  | netFail

/-- The remote catalog, as a deterministic oracle from (genre id, page
number) to the fetch outcome. -/
abbrev Server := Int → Nat → FetchResult

/-- The movie page URL template of `search_movies`. -/
def movie_search_url (genre_id : Int) (page_num : Nat) : String :=
  "http://slamtiomid.info/api/movie/by/filtres/" ++ toString genre_id ++
  "/year/" ++ toString page_num ++ "/4F5A9C3D9A86FA54EACEDDD635185/"

/-- The series page URL template of `search_series`. -/
def serie_search_url (genre_id : Int) (page_num : Nat) : String :=
  "http://slamtiomid.info/api/serie/by/filtres/" ++ toString genre_id ++
  "/year/" ++ toString page_num ++ "/4F5A9C3D9A86FA54EACEDDD635185/"

/-- The `for movie in movies:` loop of `search_movies`: skip non-dict items,
match the query case-insensitively (substring or equality) against the
title, append the extracted record on a match, and on an exact match return
the accumulated results at once (second component `true`). -/
def scan_movie_items (query genre_title : String) :
    List (Option MediaItem) → List MediaResult → List MediaResult × Bool
  | [], results => (results, false)
  | none :: rest, results => scan_movie_items query genre_title rest results
  | some movie :: rest, results =>
    let title := movie.title
    if strContains (lowerString title) (lowerString query)
        || (lowerString query == lowerString title) then
      match extract_media_details (some movie) "Movie" genre_title with
      | some movie_details =>
        let results' := results ++ [movie_details]
        if lowerString query == lowerString title then (results', true)
        else scan_movie_items query genre_title rest results'
      | none => scan_movie_items query genre_title rest results
    else scan_movie_items query genre_title rest results

/-- Outcome of one genre's `while True:` page loop. -/
inductive PagesOutcome where
  /-- The loop hit `break` (empty page, non-200 status, or JSON decode
  error): the enclosing `for genre` loop continues with the next genre. -/
  | nextGenre (results : List MediaResult) (log : List (Int × Nat))
  /-- The whole search returns now: exact-match `return results`, or an
  uncaught exception during the page fetch landing in the outer `except`,
  which also ends in `return results`. -/
  | finished (results : List MediaResult) (log : List (Int × Nat))
  /-- Model artifact: the fuel bound was reached while the loop was still
  running. -/
  | outOfFuel (results : List MediaResult) (log : List (Int × Nat))

/-- The `while True:` pagination loop of `search_movies` for one genre,
starting at `page`, threading the accumulated `results` and the request
`log` of (genre id, page) pairs fetched so far. -/
def search_movie_pages (query genre_title : String) (gid : Int) (server : Server) :
    Nat → Nat → List MediaResult → List (Int × Nat) → PagesOutcome
  | 0, _, results, log => .outOfFuel results log
  | fuel + 1, page, results, log =>
    let log' := log ++ [(gid, page)]
    match server gid page with
    | .netFail => .finished results log'
    | .success status body =>
      if status = 200 then
        match body with
        | none => .nextGenre results log'
        | some movies =>
          if movies.isEmpty then .nextGenre results log'
          else
            match scan_movie_items query genre_title movies results with
            | (results', true) => .finished results' log'
            | (results', false) =>
                search_movie_pages query genre_title gid server fuel (page + 1) results' log'
      else .nextGenre results log'

/-- Outcome of the whole `for genre in search_genres:` loop. -/
inductive SearchOutcome where
  /-- Control reached `return results` (normal fall-through, exact match, or
  the outer `except` handler after an uncaught fetch exception). -/
  | done (results : List MediaResult) (log : List (Int × Nat))
  /-- Model artifact: some genre's page loop ran out of fuel. -/
  | outOfFuel (results : List MediaResult) (log : List (Int × Nat))

/-- The `for genre in search_genres:` loop of `search_movies`: genres whose
`id` is absent or `0` are skipped by `if genre_id:`; otherwise the genre's
page loop runs and either the search continues with the remaining genres or
it returns immediately. -/
def search_movies_genres (query : String) (server : Server) (fuel : Nat) :
    List Genre → List MediaResult → List (Int × Nat) → SearchOutcome
  | [], results, log => .done results log
  | genre :: rest, results, log =>
    match genre.id with
    | some gid =>
      if gid ≠ 0 then
        match search_movie_pages query genre.title gid server fuel 0 results log with
        | .nextGenre results' log' => search_movies_genres query server fuel rest results' log'
        | .finished results' log' => .done results' log'
        | .outOfFuel results' log' => .outOfFuel results' log'
      else search_movies_genres query server fuel rest results log
    | none => search_movies_genres query server fuel rest results log

/-- Result of a whole `search_movies`/`search_series` call. -/
inductive SearchCallResult where
  /-- The call returned this result list, having fetched these pages. -/
  | ok (results : List MediaResult) (log : List (Int × Nat))
  /-- The call raised: `load_json_data` failed inside `try`, the handler
  printed, and the final `return results` hit an unbound `results`
  (`UnboundLocalError`). -/
  | raised
  /-- Model artifact: fuel ran out. -/
  | outOfFuel (results : List MediaResult) (log : List (Int × Nat))

/-- The genre filter `genre_id is None or g.get('id') == genre_id`. -/
def genreMatches (genre_id : Option Int) (g : Genre) : Bool :=
  match genre_id with
  | none => true
  | some n => g.id == some n

/-- `search_movies` from `video_search.py`.  `genresLoad` is the outcome of
`load_json_data` (`none` when it raises); `country_id` is accepted but never
read. -/
def search_movies (query : String) (genre_id country_id : Option Int)
    (genresLoad : Option (List Genre)) (server : Server) (fuel : Nat) :
    SearchCallResult :=
  match genresLoad with
  | none => .raised
  | some genres =>
    let search_genres := genres.filter (genreMatches genre_id)
    match search_movies_genres query server fuel search_genres [] [] with
    | .done results log => .ok results log
    | .outOfFuel results log => .outOfFuel results log

/-- The `for serie in series:` loop of `search_series`; identical to
`scan_movie_items` except that items are extracted with media type
`'Series'`. -/
def scan_serie_items (query genre_title : String) :
    List (Option MediaItem) → List MediaResult → List MediaResult × Bool
  | [], results => (results, false)
  | none :: rest, results => scan_serie_items query genre_title rest results
  | some serie :: rest, results =>
    let title := serie.title
    if strContains (lowerString title) (lowerString query)
        || (lowerString query == lowerString title) then
      match extract_media_details (some serie) "Series" genre_title with
      | some serie_details =>
        let results' := results ++ [serie_details]
        if lowerString query == lowerString title then (results', true)
        else scan_serie_items query genre_title rest results'
      | none => scan_serie_items query genre_title rest results
    else scan_serie_items query genre_title rest results

/-- The `while True:` pagination loop of `search_series` for one genre;
identical to `search_movie_pages` except for the item scan (and, at the
HTTP layer, the serie URL template). -/
def search_serie_pages (query genre_title : String) (gid : Int) (server : Server) :
    Nat → Nat → List MediaResult → List (Int × Nat) → PagesOutcome
  | 0, _, results, log => .outOfFuel results log
  | fuel + 1, page, results, log =>
    let log' := log ++ [(gid, page)]
    match server gid page with
    | .netFail => .finished results log'
    | .success status body =>
      if status = 200 then
        match body with
        | none => .nextGenre results log'
        | some series =>
          if series.isEmpty then .nextGenre results log'
          else
            match scan_serie_items query genre_title series results with
            | (results', true) => .finished results' log'
            | (results', false) =>
                search_serie_pages query genre_title gid server fuel (page + 1) results' log'
      else .nextGenre results log'

/-- The `for genre in search_genres:` loop of `search_series`. -/
def search_series_genres (query : String) (server : Server) (fuel : Nat) :
    List Genre → List MediaResult → List (Int × Nat) → SearchOutcome
  | [], results, log => .done results log
  | genre :: rest, results, log =>
    match genre.id with
    | some gid =>
      if gid ≠ 0 then
        match search_serie_pages query genre.title gid server fuel 0 results log with
        | .nextGenre results' log' => search_series_genres query server fuel rest results' log'
        | .finished results' log' => .done results' log'
        | .outOfFuel results' log' => .outOfFuel results' log'
      else search_series_genres query server fuel rest results log
    | none => search_series_genres query server fuel rest results log

/-- `search_series` from `video_search.py`. -/
def search_series (query : String) (genre_id country_id : Option Int)
    (genresLoad : Option (List Genre)) (server : Server) (fuel : Nat) :
    SearchCallResult :=
  match genresLoad with
  | none => .raised
  | some genres =>
    let search_genres := genres.filter (genreMatches genre_id)
    match search_series_genres query server fuel search_genres [] [] with
    | .done results log => .ok results log
    | .outOfFuel results log => .outOfFuel results log

/-- The request log carried by a page-loop outcome. -/
def PagesOutcome.logOf : PagesOutcome → List (Int × Nat)
  | .nextGenre _ log => log
  | .finished _ log => log
  | .outOfFuel _ log => log

/-- The fetch outcomes on which the page loop hits `break` and the search
moves to the next genre: a non-200 status, a JSON decode error, or an empty
item list. -/
def pageStop : FetchResult → Prop
  | .success status body => status ≠ 200 ∨ body = none ∨ body = some []
  | .netFail => False

/-- The pairs (genre id, page number) requested by a run over pages
`page, page+1, ..., page+n`. -/
def pageLog (gid : Int) (page n : Nat) : List (Int × Nat) :=
  (List.range (n + 1)).map (fun i => (gid, page + i))

/-- The results the movie scan gathers from `n` consecutive pages whose item
lists are `pages 0, ..., pages (n-1)`. -/
def movieGather (q gt : String) (pages : Nat → List (Option MediaItem)) (n : Nat) :
    List MediaResult :=
  ((List.range n).map (fun i => (scan_movie_items q gt (pages i) []).1)).flatten

/-- Series counterpart of `movieGather`. -/
def serieGather (q gt : String) (pages : Nat → List (Option MediaItem)) (n : Nat) :
    List MediaResult :=
  ((List.range n).map (fun i => (scan_serie_items q gt (pages i) []).1)).flatten

/-- Replace a result's media type with `'Series'`. -/
def seriesRetype (r : MediaResult) : MediaResult :=
  { r with type := "Series" }

/-- Retyping a page-loop outcome. -/
def PagesOutcome.toSeries : PagesOutcome → PagesOutcome
  | .nextGenre res log => .nextGenre (res.map seriesRetype) log
  | .finished res log => .finished (res.map seriesRetype) log
  | .outOfFuel res log => .outOfFuel (res.map seriesRetype) log

/-- Retyping a genre-loop outcome. -/
def SearchOutcome.toSeries : SearchOutcome → SearchOutcome
  | .done res log => .done (res.map seriesRetype) log
  | .outOfFuel res log => .outOfFuel (res.map seriesRetype) log

/-- Retyping a whole search call's outcome. -/
def SearchCallResult.toSeries : SearchCallResult → SearchCallResult
  | .ok res log => .ok (res.map seriesRetype) log
  | .raised => .raised
  | .outOfFuel res log => .outOfFuel (res.map seriesRetype) log

/-- Server for the C1 witness: genre 1 page 0 carries a substring match, an
exact match, and a further item; everything else would raise. -/
def witnessServerC1 : Server := fun g p =>
  if g = 1 ∧ p = 0 then
    .success 200 (some [some { title := "xabcx" }, some { title := "ABC" },
      some { title := "later" }])
  else .netFail

/-- Server for the C2 witness: pages 0 and 1 of every genre are non-empty
with no matching title, page 2 is empty. -/
def witnessServerC2 : Server := fun _ p =>
  if p < 2 then .success 200 (some [some { title := "zzz" }])
  else .success 200 (some [])

/-- Server for the C3 witness: every fetch raises. -/
def witnessServerC3 : Server := fun _ _ => .netFail

/-! ### Sanity examples -/

example : parse_source (.str "http://x") = some ⟨"unknown", "unknown", "http://x"⟩ := by rfl

example : parse_source (.dict [("type", "MP4"), ("quality", "تیزر"), ("url", "u")])
    = some ⟨"stream", "Trailer", "u"⟩ := by rfl

example : parse_source (.dict [("type", "mkv")]) = some ⟨"download", "unknown", ""⟩ := by rfl

example : parse_source .null = none := by rfl

example : load_json_data (some (some (.obj []))) (some (some (.obj [])))
    = .ok (.arr [], .arr []) := by rfl

/-! ### Helper lemmas about the item scan -/

/-- Movie scan with an arbitrary accumulator, reduced to the scan started
from the empty accumulator. -/
theorem scan_movie_items_acc (q gt : String) :
    ∀ (items : List (Option MediaItem)) (acc : List MediaResult),
      scan_movie_items q gt items acc
        = (acc ++ (scan_movie_items q gt items []).1,
           (scan_movie_items q gt items []).2)
  | [], acc => by simp [scan_movie_items]
  | none :: rest, acc => by
      simpa [scan_movie_items] using scan_movie_items_acc q gt rest acc
  | some movie :: rest, acc => by
      simp only [scan_movie_items, extract_media_details]
      by_cases hcond :
          (strContains (lowerString movie.title) (lowerString q)
            || (lowerString q == lowerString movie.title)) = true
      · simp only [hcond, if_true]
        by_cases hex : (lowerString q == lowerString movie.title) = true
        · simp [hex]
        · simp only [Bool.not_eq_true] at hex
          simp only [hex, Bool.false_eq_true, if_false]
          rw [scan_movie_items_acc q gt rest (acc ++ [_]),
              scan_movie_items_acc q gt rest ([] ++ [_])]
          simp
      · simp only [Bool.not_eq_true] at hcond
        simp only [hcond, Bool.false_eq_true, if_false]
        exact scan_movie_items_acc q gt rest acc

/-- Series scan with an arbitrary accumulator. -/
theorem scan_serie_items_acc (q gt : String) :
    ∀ (items : List (Option MediaItem)) (acc : List MediaResult),
      scan_serie_items q gt items acc
        = (acc ++ (scan_serie_items q gt items []).1,
           (scan_serie_items q gt items []).2)
  | [], acc => by simp [scan_serie_items]
  | none :: rest, acc => by
      simpa [scan_serie_items] using scan_serie_items_acc q gt rest acc
  | some serie :: rest, acc => by
      simp only [scan_serie_items, extract_media_details]
      by_cases hcond :
          (strContains (lowerString serie.title) (lowerString q)
            || (lowerString q == lowerString serie.title)) = true
      · simp only [hcond, if_true]
        by_cases hex : (lowerString q == lowerString serie.title) = true
        · simp [hex]
        · simp only [Bool.not_eq_true] at hex
          simp only [hex, Bool.false_eq_true, if_false]
          rw [scan_serie_items_acc q gt rest (acc ++ [_]),
              scan_serie_items_acc q gt rest ([] ++ [_])]
          simp
      · simp only [Bool.not_eq_true] at hcond
        simp only [hcond, Bool.false_eq_true, if_false]
        exact scan_serie_items_acc q gt rest acc

/-- As soon as the movie scan reaches an exactly matching dict item, it
appends that item's record and reports `true`, ignoring everything after
the item. -/
theorem scan_movie_items_exact (q gt : String) (m : MediaItem) (d : MediaResult)
    (hm : (lowerString q == lowerString m.title) = true)
    (hd : extract_media_details (some m) "Movie" gt = some d) :
    ∀ (pre post : List (Option MediaItem)) (acc : List MediaResult),
      (scan_movie_items q gt pre []).2 = false →
      scan_movie_items q gt (pre ++ some m :: post) acc
        = (acc ++ (scan_movie_items q gt pre []).1 ++ [d], true)
  | [], post, acc, _ => by
      simp only [List.nil_append, scan_movie_items, hm, Bool.or_true, if_true, hd, if_pos]
      simp [scan_movie_items]
  | none :: rest, post, acc, hflag => by
      simp only [scan_movie_items, List.cons_append] at hflag ⊢
      simpa [scan_movie_items] using
        scan_movie_items_exact q gt m d hm hd rest post acc hflag
  | some p :: rest, post, acc, hflag => by
      simp only [scan_movie_items, List.cons_append, extract_media_details] at hflag ⊢
      by_cases hcond :
          (strContains (lowerString p.title) (lowerString q)
            || (lowerString q == lowerString p.title)) = true
      · simp only [hcond, if_true] at hflag ⊢
        by_cases hex : (lowerString q == lowerString p.title) = true
        · rw [if_pos hex] at hflag
          exact absurd hflag (by simp)
        · simp only [Bool.not_eq_true] at hex
          simp only [hex, Bool.false_eq_true, if_false] at hflag ⊢
          rw [scan_movie_items_acc q gt rest ([] ++ [_])] at hflag ⊢
          simp only [List.nil_append, List.append_eq] at hflag ⊢
          rw [scan_movie_items_exact q gt m d hm hd rest post (acc ++ [_]) (by simpa using hflag)]
          simp
      · simp only [Bool.not_eq_true] at hcond
        simp only [hcond, Bool.false_eq_true, if_false] at hflag ⊢
        exact scan_movie_items_exact q gt m d hm hd rest post acc hflag

/-- Series version of `scan_movie_items_exact`. -/
theorem scan_serie_items_exact (q gt : String) (m : MediaItem) (d : MediaResult)
    (hm : (lowerString q == lowerString m.title) = true)
    (hd : extract_media_details (some m) "Series" gt = some d) :
    ∀ (pre post : List (Option MediaItem)) (acc : List MediaResult),
      (scan_serie_items q gt pre []).2 = false →
      scan_serie_items q gt (pre ++ some m :: post) acc
        = (acc ++ (scan_serie_items q gt pre []).1 ++ [d], true)
  | [], post, acc, _ => by
      simp only [List.nil_append, scan_serie_items, hm, Bool.or_true, if_true, hd, if_pos]
      simp [scan_serie_items]
  | none :: rest, post, acc, hflag => by
      simp only [scan_serie_items, List.cons_append] at hflag ⊢
      simpa [scan_serie_items] using
        scan_serie_items_exact q gt m d hm hd rest post acc hflag
  | some p :: rest, post, acc, hflag => by
      simp only [scan_serie_items, List.cons_append, extract_media_details] at hflag ⊢
      by_cases hcond :
          (strContains (lowerString p.title) (lowerString q)
            || (lowerString q == lowerString p.title)) = true
      · simp only [hcond, if_true] at hflag ⊢
        by_cases hex : (lowerString q == lowerString p.title) = true
        · rw [if_pos hex] at hflag
          exact absurd hflag (by simp)
        · simp only [Bool.not_eq_true] at hex
          simp only [hex, Bool.false_eq_true, if_false] at hflag ⊢
          rw [scan_serie_items_acc q gt rest ([] ++ [_])] at hflag ⊢
          simp only [List.nil_append, List.append_eq] at hflag ⊢
          rw [scan_serie_items_exact q gt m d hm hd rest post (acc ++ [_]) (by simpa using hflag)]
          simp
      · simp only [Bool.not_eq_true] at hcond
        simp only [hcond, Bool.false_eq_true, if_false] at hflag ⊢
        exact scan_serie_items_exact q gt m d hm hd rest post acc hflag

/-! ### Helper lemmas about the page loop -/

theorem pageLog_zero (gid : Int) (page : Nat) : pageLog gid page 0 = [(gid, page)] := by
  simp [pageLog, List.range_succ]

theorem pageLog_succ (gid : Int) (page n : Nat) :
    pageLog gid page (n + 1) = (gid, page) :: pageLog gid (page + 1) n := by
  unfold pageLog
  rw [List.range_succ_eq_map, List.map_cons, List.map_map]
  refine congrArg₂ List.cons (by simp) (List.map_congr_left fun i _ => ?_)
  simp only [Function.comp_apply]
  have h : page + (i + 1) = page + 1 + i := by omega
  simp [Nat.succ_eq_add_one, h]

theorem movieGather_zero (q gt : String) (pages : Nat → List (Option MediaItem)) :
    movieGather q gt pages 0 = [] := by
  simp [movieGather]

theorem movieGather_succ (q gt : String) (pages : Nat → List (Option MediaItem)) (n : Nat) :
    movieGather q gt pages (n + 1)
      = (scan_movie_items q gt (pages 0) []).1
          ++ movieGather q gt (fun i => pages (i + 1)) n := by
  unfold movieGather
  rw [List.range_succ_eq_map, List.map_cons, List.map_map, List.flatten_cons]
  exact congrArg _ (congrArg _
    (List.map_congr_left fun i _ => by simp [Function.comp, Nat.succ_eq_add_one]))

theorem serieGather_zero (q gt : String) (pages : Nat → List (Option MediaItem)) :
    serieGather q gt pages 0 = [] := by
  simp [serieGather]

theorem serieGather_succ (q gt : String) (pages : Nat → List (Option MediaItem)) (n : Nat) :
    serieGather q gt pages (n + 1)
      = (scan_serie_items q gt (pages 0) []).1
          ++ serieGather q gt (fun i => pages (i + 1)) n := by
  unfold serieGather
  rw [List.range_succ_eq_map, List.map_cons, List.map_map, List.flatten_cons]
  exact congrArg _ (congrArg _
    (List.map_congr_left fun i _ => by simp [Function.comp, Nat.succ_eq_add_one]))

/-- Every step of the movie page loop appends to the request log; with fuel
left, at least one request is issued. -/
theorem search_movie_pages_log (q gt : String) (gid : Int) (server : Server) :
    ∀ (fuel page : Nat) (acc : List MediaResult) (log : List (Int × Nat)),
      ∃ ext, (search_movie_pages q gt gid server fuel page acc log).logOf = log ++ ext
        ∧ (0 < fuel → ext ≠ [])
  | 0, page, acc, log => ⟨[], by simp [search_movie_pages, PagesOutcome.logOf], by omega⟩
  | fuel + 1, page, acc, log => by
      rcases hsrv : server gid page with ⟨status, body⟩ | _
      · by_cases h200 : status = 200
        · subst h200
          rcases body with _ | items
          · exact ⟨[(gid, page)], by simp [search_movie_pages, hsrv, PagesOutcome.logOf],
              fun _ => by simp⟩
          · by_cases hemp : items.isEmpty
            · exact ⟨[(gid, page)],
                by simp [search_movie_pages, hsrv, hemp, PagesOutcome.logOf],
                fun _ => by simp⟩
            · rcases hscan : scan_movie_items q gt items acc with ⟨res, flag⟩
              cases flag
              · obtain ⟨ext, hext, _⟩ :=
                  search_movie_pages_log q gt gid server fuel (page + 1) res (log ++ [(gid, page)])
                exact ⟨(gid, page) :: ext,
                  by simp only [search_movie_pages, hsrv, if_pos rfl, hemp,
                        Bool.false_eq_true, if_false, hscan]
                     simpa using hext,
                  fun _ => by simp⟩
              · exact ⟨[(gid, page)],
                  by simp [search_movie_pages, hsrv, hemp, hscan, PagesOutcome.logOf],
                  fun _ => by simp⟩
        · exact ⟨[(gid, page)],
            by simp [search_movie_pages, hsrv, h200, PagesOutcome.logOf], fun _ => by simp⟩
      · exact ⟨[(gid, page)],
          by simp [search_movie_pages, hsrv, PagesOutcome.logOf], fun _ => by simp⟩

/-- Series counterpart of `search_movie_pages_log`. -/
theorem search_serie_pages_log (q gt : String) (gid : Int) (server : Server) :
    ∀ (fuel page : Nat) (acc : List MediaResult) (log : List (Int × Nat)),
      ∃ ext, (search_serie_pages q gt gid server fuel page acc log).logOf = log ++ ext
        ∧ (0 < fuel → ext ≠ [])
  | 0, page, acc, log => ⟨[], by simp [search_serie_pages, PagesOutcome.logOf], by omega⟩
  | fuel + 1, page, acc, log => by
      rcases hsrv : server gid page with ⟨status, body⟩ | _
      · by_cases h200 : status = 200
        · subst h200
          rcases body with _ | items
          · exact ⟨[(gid, page)], by simp [search_serie_pages, hsrv, PagesOutcome.logOf],
              fun _ => by simp⟩
          · by_cases hemp : items.isEmpty
            · exact ⟨[(gid, page)],
                by simp [search_serie_pages, hsrv, hemp, PagesOutcome.logOf],
                fun _ => by simp⟩
            · rcases hscan : scan_serie_items q gt items acc with ⟨res, flag⟩
              cases flag
              · obtain ⟨ext, hext, _⟩ :=
                  search_serie_pages_log q gt gid server fuel (page + 1) res (log ++ [(gid, page)])
                exact ⟨(gid, page) :: ext,
                  by simp only [search_serie_pages, hsrv, if_pos rfl, hemp,
                        Bool.false_eq_true, if_false, hscan]
                     simpa using hext,
                  fun _ => by simp⟩
              · exact ⟨[(gid, page)],
                  by simp [search_serie_pages, hsrv, hemp, hscan, PagesOutcome.logOf],
                  fun _ => by simp⟩
        · exact ⟨[(gid, page)],
            by simp [search_serie_pages, hsrv, h200, PagesOutcome.logOf], fun _ => by simp⟩
      · exact ⟨[(gid, page)],
          by simp [search_serie_pages, hsrv, PagesOutcome.logOf], fun _ => by simp⟩

/-- A run of the movie page loop over `n` good pages (status 200, non-empty
item list, no exact match) followed by a stopping page requests exactly
pages `page .. page+n` and breaks to the next genre with the gathered
matches appended. -/
theorem search_movie_pages_run (q gt : String) (gid : Int) (server : Server) :
    ∀ (n : Nat) (pages : Nat → List (Option MediaItem)) (fuel page : Nat)
      (acc : List MediaResult) (log : List (Int × Nat)),
      n < fuel →
      (∀ i, i < n → server gid (page + i) = .success 200 (some (pages i)) ∧
        pages i ≠ [] ∧ (scan_movie_items q gt (pages i) []).2 = false) →
      pageStop (server gid (page + n)) →
      search_movie_pages q gt gid server fuel page acc log
        = .nextGenre (acc ++ movieGather q gt pages n) (log ++ pageLog gid page n)
  | 0, pages, fuel, page, acc, log, hfuel, _, hstop => by
      obtain ⟨f, rfl⟩ : ∃ f, fuel = f + 1 := ⟨fuel - 1, by omega⟩
      simp only [Nat.add_zero] at hstop
      rcases hsrv : server gid page with ⟨status, body⟩ | _
      · rw [hsrv] at hstop
        simp only [pageStop] at hstop
        rcases hstop with h200 | hbody | hbody
        · simp [search_movie_pages, hsrv, h200, movieGather_zero, pageLog_zero]
        · subst hbody
          simp [search_movie_pages, hsrv, movieGather_zero, pageLog_zero]
        · subst hbody
          simp [search_movie_pages, hsrv, movieGather_zero, pageLog_zero, List.isEmpty]
      · rw [hsrv] at hstop
        simp [pageStop] at hstop
  | n + 1, pages, fuel, page, acc, log, hfuel, hok, hstop => by
      obtain ⟨f, rfl⟩ : ∃ f, fuel = f + 1 := ⟨fuel - 1, by omega⟩
      obtain ⟨hsrv0, hne0, hflag0⟩ := hok 0 (by omega)
      simp only [Nat.add_zero] at hsrv0
      have hemp : (pages 0).isEmpty = false := by
        cases h : pages 0
        · exact absurd h hne0
        · simp [List.isEmpty]
      have hscan : scan_movie_items q gt (pages 0) acc
          = (acc ++ (scan_movie_items q gt (pages 0) []).1, false) := by
        rw [scan_movie_items_acc, hflag0]
      have hrec :
          search_movie_pages q gt gid server f (page + 1)
            (acc ++ (scan_movie_items q gt (pages 0) []).1) (log ++ [(gid, page)])
          = .nextGenre
              ((acc ++ (scan_movie_items q gt (pages 0) []).1)
                ++ movieGather q gt (fun i => pages (i + 1)) n)
              ((log ++ [(gid, page)]) ++ pageLog gid (page + 1) n) := by
        apply search_movie_pages_run q gt gid server n (fun i => pages (i + 1)) f (page + 1)
        · omega
        · intro i hi
          have h := hok (i + 1) (by omega)
          have harith : page + (i + 1) = page + 1 + i := by omega
          rw [harith] at h
          exact h
        · have harith : page + (n + 1) = page + 1 + n := by omega
          rw [harith] at hstop
          exact hstop
      simp only [search_movie_pages, hsrv0, if_pos rfl, hemp, Bool.false_eq_true, if_false,
        hscan, hrec, movieGather_succ, pageLog_succ]
      simp

/-- Series counterpart of `search_movie_pages_run`. -/
theorem search_serie_pages_run (q gt : String) (gid : Int) (server : Server) :
    ∀ (n : Nat) (pages : Nat → List (Option MediaItem)) (fuel page : Nat)
      (acc : List MediaResult) (log : List (Int × Nat)),
      n < fuel →
      (∀ i, i < n → server gid (page + i) = .success 200 (some (pages i)) ∧
        pages i ≠ [] ∧ (scan_serie_items q gt (pages i) []).2 = false) →
      pageStop (server gid (page + n)) →
      search_serie_pages q gt gid server fuel page acc log
        = .nextGenre (acc ++ serieGather q gt pages n) (log ++ pageLog gid page n)
  | 0, pages, fuel, page, acc, log, hfuel, _, hstop => by
      obtain ⟨f, rfl⟩ : ∃ f, fuel = f + 1 := ⟨fuel - 1, by omega⟩
      simp only [Nat.add_zero] at hstop
      rcases hsrv : server gid page with ⟨status, body⟩ | _
      · rw [hsrv] at hstop
        simp only [pageStop] at hstop
        rcases hstop with h200 | hbody | hbody
        · simp [search_serie_pages, hsrv, h200, serieGather_zero, pageLog_zero]
        · subst hbody
          simp [search_serie_pages, hsrv, serieGather_zero, pageLog_zero]
        · subst hbody
          simp [search_serie_pages, hsrv, serieGather_zero, pageLog_zero, List.isEmpty]
      · rw [hsrv] at hstop
        simp [pageStop] at hstop
  | n + 1, pages, fuel, page, acc, log, hfuel, hok, hstop => by
      obtain ⟨f, rfl⟩ : ∃ f, fuel = f + 1 := ⟨fuel - 1, by omega⟩
      obtain ⟨hsrv0, hne0, hflag0⟩ := hok 0 (by omega)
      simp only [Nat.add_zero] at hsrv0
      have hemp : (pages 0).isEmpty = false := by
        cases h : pages 0
        · exact absurd h hne0
        · simp [List.isEmpty]
      have hscan : scan_serie_items q gt (pages 0) acc
          = (acc ++ (scan_serie_items q gt (pages 0) []).1, false) := by
        rw [scan_serie_items_acc, hflag0]
      have hrec :
          search_serie_pages q gt gid server f (page + 1)
            (acc ++ (scan_serie_items q gt (pages 0) []).1) (log ++ [(gid, page)])
          = .nextGenre
              ((acc ++ (scan_serie_items q gt (pages 0) []).1)
                ++ serieGather q gt (fun i => pages (i + 1)) n)
              ((log ++ [(gid, page)]) ++ pageLog gid (page + 1) n) := by
        apply search_serie_pages_run q gt gid server n (fun i => pages (i + 1)) f (page + 1)
        · omega
        · intro i hi
          have h := hok (i + 1) (by omega)
          have harith : page + (i + 1) = page + 1 + i := by omega
          rw [harith] at h
          exact h
        · have harith : page + (n + 1) = page + 1 + n := by omega
          rw [harith] at hstop
          exact hstop
      simp only [search_serie_pages, hsrv0, if_pos rfl, hemp, Bool.false_eq_true, if_false,
        hscan, hrec, serieGather_succ, pageLog_succ]
      simp

/-- With fuel left, the movie page loop breaks to the next genre at the
current page — leaving the results untouched and having issued exactly this
page's request — precisely when the page's response is empty, non-200, or
undecodable. -/
theorem search_movie_pages_break_iff (q gt : String) (gid : Int) (server : Server)
    (fuel page : Nat) (acc : List MediaResult) (log : List (Int × Nat))
    (hfuel : 0 < fuel) :
    search_movie_pages q gt gid server fuel page acc log
        = .nextGenre acc (log ++ [(gid, page)])
      ↔ pageStop (server gid page) := by
  obtain ⟨f, rfl⟩ : ∃ f, fuel = f + 1 := ⟨fuel - 1, by omega⟩
  constructor
  · intro h
    rcases hsrv : server gid page with ⟨status, body⟩ | _
    · by_cases h200 : status = 200
      · subst h200
        rcases body with _ | items
        · simp [pageStop]
        · by_cases hemp : items.isEmpty
          · rw [List.isEmpty_iff.mp hemp]
            simp [pageStop]
          · exfalso
            simp only [Bool.not_eq_true] at hemp
            rcases hscan : scan_movie_items q gt items acc with ⟨res, flag⟩
            cases flag
            · simp only [search_movie_pages, hsrv, if_pos rfl, hemp,
                Bool.false_eq_true, if_false, hscan, if_true] at h
              rcases f with _ | f'
              · simp [search_movie_pages] at h
              · obtain ⟨ext, hext, hne⟩ :=
                  search_movie_pages_log q gt gid server (f' + 1) (page + 1) res
                    (log ++ [(gid, page)])
                rw [h] at hext
                simp only [PagesOutcome.logOf] at hext
                have hnil : ext = [] := by
                  have hlen := congrArg List.length hext
                  simp at hlen
                  exact hlen
                exact hne (by omega) hnil
            · simp [search_movie_pages, hsrv, hemp, hscan] at h
      · simp [pageStop, h200]
    · simp [search_movie_pages, hsrv] at h
  · intro hstop
    have h := search_movie_pages_run q gt gid server 0 (fun _ => []) (f + 1) page acc log
      (by omega) (fun i hi => absurd hi (by omega)) (by simpa using hstop)
    simpa [movieGather_zero, pageLog_zero] using h

/-- Series counterpart of `search_movie_pages_break_iff`. -/
theorem search_serie_pages_break_iff (q gt : String) (gid : Int) (server : Server)
    (fuel page : Nat) (acc : List MediaResult) (log : List (Int × Nat))
    (hfuel : 0 < fuel) :
    search_serie_pages q gt gid server fuel page acc log
        = .nextGenre acc (log ++ [(gid, page)])
      ↔ pageStop (server gid page) := by
  obtain ⟨f, rfl⟩ : ∃ f, fuel = f + 1 := ⟨fuel - 1, by omega⟩
  constructor
  · intro h
    rcases hsrv : server gid page with ⟨status, body⟩ | _
    · by_cases h200 : status = 200
      · subst h200
        rcases body with _ | items
        · simp [pageStop]
        · by_cases hemp : items.isEmpty
          · rw [List.isEmpty_iff.mp hemp]
            simp [pageStop]
          · exfalso
            simp only [Bool.not_eq_true] at hemp
            rcases hscan : scan_serie_items q gt items acc with ⟨res, flag⟩
            cases flag
            · simp only [search_serie_pages, hsrv, if_pos rfl, hemp,
                Bool.false_eq_true, if_false, hscan, if_true] at h
              rcases f with _ | f'
              · simp [search_serie_pages] at h
              · obtain ⟨ext, hext, hne⟩ :=
                  search_serie_pages_log q gt gid server (f' + 1) (page + 1) res
                    (log ++ [(gid, page)])
                rw [h] at hext
                simp only [PagesOutcome.logOf] at hext
                have hnil : ext = [] := by
                  have hlen := congrArg List.length hext
                  simp at hlen
                  exact hlen
                exact hne (by omega) hnil
            · simp [search_serie_pages, hsrv, hemp, hscan] at h
      · simp [pageStop, h200]
    · simp [search_serie_pages, hsrv] at h
  · intro hstop
    have h := search_serie_pages_run q gt gid server 0 (fun _ => []) (f + 1) page acc log
      (by omega) (fun i hi => absurd hi (by omega)) (by simpa using hstop)
    simpa [serieGather_zero, pageLog_zero] using h

/-- If the current movie page holds an exact match (after an exact-match-free
prefix), the page loop returns `finished` at once: the accumulated results
plus the prefix's substring matches plus the exact item's record, with only
this page's request logged. -/
theorem search_movie_pages_exact (q gt : String) (gid : Int) (server : Server)
    (fuel page : Nat) (acc : List MediaResult) (log : List (Int × Nat))
    (pre post : List (Option MediaItem)) (m : MediaItem) (d : MediaResult)
    (hfuel : 0 < fuel)
    (hsrv : server gid page = .success 200 (some (pre ++ some m :: post)))
    (hpre : (scan_movie_items q gt pre []).2 = false)
    (hm : (lowerString q == lowerString m.title) = true)
    (hd : extract_media_details (some m) "Movie" gt = some d) :
    search_movie_pages q gt gid server fuel page acc log
      = .finished (acc ++ (scan_movie_items q gt pre []).1 ++ [d])
          (log ++ [(gid, page)]) := by
  obtain ⟨f, rfl⟩ : ∃ f, fuel = f + 1 := ⟨fuel - 1, by omega⟩
  have hemp : (pre ++ some m :: post).isEmpty = false := by
    cases pre <;> simp [List.isEmpty]
  have hscan := scan_movie_items_exact q gt m d hm hd pre post acc hpre
  simp [search_movie_pages, hsrv, hemp, hscan]

/-- Series counterpart of `search_movie_pages_exact`. -/
theorem search_serie_pages_exact (q gt : String) (gid : Int) (server : Server)
    (fuel page : Nat) (acc : List MediaResult) (log : List (Int × Nat))
    (pre post : List (Option MediaItem)) (m : MediaItem) (d : MediaResult)
    (hfuel : 0 < fuel)
    (hsrv : server gid page = .success 200 (some (pre ++ some m :: post)))
    (hpre : (scan_serie_items q gt pre []).2 = false)
    (hm : (lowerString q == lowerString m.title) = true)
    (hd : extract_media_details (some m) "Series" gt = some d) :
    search_serie_pages q gt gid server fuel page acc log
      = .finished (acc ++ (scan_serie_items q gt pre []).1 ++ [d])
          (log ++ [(gid, page)]) := by
  obtain ⟨f, rfl⟩ : ∃ f, fuel = f + 1 := ⟨fuel - 1, by omega⟩
  have hemp : (pre ++ some m :: post).isEmpty = false := by
    cases pre <;> simp [List.isEmpty]
  have hscan := scan_serie_items_exact q gt m d hm hd pre post acc hpre
  simp [search_serie_pages, hsrv, hemp, hscan]

/-- A transport failure (the `requests.get` raises) on the current movie
page ends the whole search with the accumulated results, the failed request
being the last one logged. -/
theorem search_movie_pages_netFail (q gt : String) (gid : Int) (server : Server)
    (fuel page : Nat) (acc : List MediaResult) (log : List (Int × Nat))
    (hfuel : 0 < fuel) (hsrv : server gid page = .netFail) :
    search_movie_pages q gt gid server fuel page acc log
      = .finished acc (log ++ [(gid, page)]) := by
  obtain ⟨f, rfl⟩ : ∃ f, fuel = f + 1 := ⟨fuel - 1, by omega⟩
  simp [search_movie_pages, hsrv]

/-- Series counterpart of `search_movie_pages_netFail`. -/
theorem search_serie_pages_netFail (q gt : String) (gid : Int) (server : Server)
    (fuel page : Nat) (acc : List MediaResult) (log : List (Int × Nat))
    (hfuel : 0 < fuel) (hsrv : server gid page = .netFail) :
    search_serie_pages q gt gid server fuel page acc log
      = .finished acc (log ++ [(gid, page)]) := by
  obtain ⟨f, rfl⟩ : ∃ f, fuel = f + 1 := ⟨fuel - 1, by omega⟩
  simp [search_serie_pages, hsrv]

/-! ### Helper lemmas about the genre loop -/

/-- Unfolding the movie genre loop when the head genre's page loop breaks. -/
theorem search_movies_genres_step_next (q : String) (server : Server) (fuel : Nat)
    (g : Genre) (rest : List Genre) (gid : Int)
    (acc res' : List MediaResult) (log log' : List (Int × Nat))
    (hg : g.id = some gid) (h0 : gid ≠ 0)
    (hpages : search_movie_pages q g.title gid server fuel 0 acc log
      = .nextGenre res' log') :
    search_movies_genres q server fuel (g :: rest) acc log
      = search_movies_genres q server fuel rest res' log' := by
  simp [search_movies_genres, hg, h0, hpages]

/-- Unfolding the movie genre loop when the head genre's page loop returns
the whole search. -/
theorem search_movies_genres_step_finished (q : String) (server : Server) (fuel : Nat)
    (g : Genre) (rest : List Genre) (gid : Int)
    (acc res' : List MediaResult) (log log' : List (Int × Nat))
    (hg : g.id = some gid) (h0 : gid ≠ 0)
    (hpages : search_movie_pages q g.title gid server fuel 0 acc log
      = .finished res' log') :
    search_movies_genres q server fuel (g :: rest) acc log = .done res' log' := by
  simp [search_movies_genres, hg, h0, hpages]

/-- Series counterpart of `search_movies_genres_step_next`. -/
theorem search_series_genres_step_next (q : String) (server : Server) (fuel : Nat)
    (g : Genre) (rest : List Genre) (gid : Int)
    (acc res' : List MediaResult) (log log' : List (Int × Nat))
    (hg : g.id = some gid) (h0 : gid ≠ 0)
    (hpages : search_serie_pages q g.title gid server fuel 0 acc log
      = .nextGenre res' log') :
    search_series_genres q server fuel (g :: rest) acc log
      = search_series_genres q server fuel rest res' log' := by
  simp [search_series_genres, hg, h0, hpages]

/-- Series counterpart of `search_movies_genres_step_finished`. -/
theorem search_series_genres_step_finished (q : String) (server : Server) (fuel : Nat)
    (g : Genre) (rest : List Genre) (gid : Int)
    (acc res' : List MediaResult) (log log' : List (Int × Nat))
    (hg : g.id = some gid) (h0 : gid ≠ 0)
    (hpages : search_serie_pages q g.title gid server fuel 0 acc log
      = .finished res' log') :
    search_series_genres q server fuel (g :: rest) acc log = .done res' log' := by
  simp [search_series_genres, hg, h0, hpages]

/-! ### Movie/series correspondence -/

/-- Extraction with media type `'Series'` is extraction with `'Movie'`
followed by retyping. -/
theorem extract_series_eq_movie (m : MediaItem) (gt : String) :
    extract_media_details (some m) "Series" gt
      = (extract_media_details (some m) "Movie" gt).map seriesRetype := by
  simp [extract_media_details, seriesRetype]

/-- The series item scan is the movie item scan with every record retyped. -/
theorem scan_serie_eq_movie (q gt : String) :
    ∀ (items : List (Option MediaItem)) (acc : List MediaResult),
      scan_serie_items q gt items (acc.map seriesRetype)
        = ((scan_movie_items q gt items acc).1.map seriesRetype,
           (scan_movie_items q gt items acc).2)
  | [], acc => by simp [scan_serie_items, scan_movie_items]
  | none :: rest, acc => by
      simpa [scan_serie_items, scan_movie_items] using scan_serie_eq_movie q gt rest acc
  | some m :: rest, acc => by
      simp only [scan_serie_items, scan_movie_items, extract_series_eq_movie,
        extract_media_details, Option.map_some]
      by_cases hcond :
          (strContains (lowerString m.title) (lowerString q)
            || (lowerString q == lowerString m.title)) = true
      · simp only [hcond, if_true]
        by_cases hex : (lowerString q == lowerString m.title) = true
        · simp [hex, seriesRetype]
        · simp only [Bool.not_eq_true] at hex
          simp only [hex, Bool.false_eq_true, if_false]
          have h := scan_serie_eq_movie q gt rest (acc ++
            [(extract_media_details (some m) "Movie" gt).get (by
              simp [extract_media_details])])
          simp only [List.map_append, extract_media_details, Option.get_some] at h
          simpa [extract_media_details, seriesRetype] using h
      · simp only [Bool.not_eq_true] at hcond
        simp only [hcond, Bool.false_eq_true, if_false]
        exact scan_serie_eq_movie q gt rest acc

/-- The series page loop is the movie page loop with results retyped; the
request log is identical. -/
theorem search_serie_pages_eq_movie (q gt : String) (gid : Int) (server : Server) :
    ∀ (fuel page : Nat) (acc : List MediaResult) (log : List (Int × Nat)),
      search_serie_pages q gt gid server fuel page (acc.map seriesRetype) log
        = (search_movie_pages q gt gid server fuel page acc log).toSeries
  | 0, page, acc, log => by
      simp [search_serie_pages, search_movie_pages, PagesOutcome.toSeries]
  | fuel + 1, page, acc, log => by
      rcases hsrv : server gid page with ⟨status, body⟩ | _
      · by_cases h200 : status = 200
        · subst h200
          rcases body with _ | items
          · simp [search_serie_pages, search_movie_pages, hsrv, PagesOutcome.toSeries]
          · by_cases hemp : items.isEmpty
            · simp [search_serie_pages, search_movie_pages, hsrv, hemp,
                PagesOutcome.toSeries]
            · rcases hscan : scan_movie_items q gt items acc with ⟨res, flag⟩
              have hscan' := scan_serie_eq_movie q gt items acc
              rw [hscan] at hscan'
              cases flag
              · simp only [search_serie_pages, search_movie_pages, hsrv, if_pos rfl, hemp,
                  Bool.false_eq_true, if_false, hscan, hscan', if_true]
                exact search_serie_pages_eq_movie q gt gid server fuel (page + 1) res
                  (log ++ [(gid, page)])
              · simp [search_serie_pages, search_movie_pages, hsrv, hemp, hscan, hscan',
                  PagesOutcome.toSeries]
        · simp [search_serie_pages, search_movie_pages, hsrv, h200, PagesOutcome.toSeries]
      · simp [search_serie_pages, search_movie_pages, hsrv, PagesOutcome.toSeries]

/-- The series genre loop is the movie genre loop with results retyped. -/
theorem search_series_genres_eq_movies (q : String) (server : Server) (fuel : Nat) :
    ∀ (gs : List Genre) (acc : List MediaResult) (log : List (Int × Nat)),
      search_series_genres q server fuel gs (acc.map seriesRetype) log
        = (search_movies_genres q server fuel gs acc log).toSeries
  | [], acc, log => by simp [search_series_genres, search_movies_genres, SearchOutcome.toSeries]
  | g :: rest, acc, log => by
      rcases hid : g.id with _ | gid
      · simp only [search_series_genres, search_movies_genres, hid]
        exact search_series_genres_eq_movies q server fuel rest acc log
      · by_cases h0 : gid ≠ 0
        · rcases hpages : search_movie_pages q g.title gid server fuel 0 acc log
            with ⟨res', log'⟩ | ⟨res', log'⟩ | ⟨res', log'⟩
          · have hp := search_serie_pages_eq_movie q g.title gid server fuel 0 acc log
            rw [hpages] at hp
            simp only [search_series_genres, search_movies_genres, hid, if_pos h0, hpages,
              hp, PagesOutcome.toSeries]
            exact search_series_genres_eq_movies q server fuel rest res' log'
          · have hp := search_serie_pages_eq_movie q g.title gid server fuel 0 acc log
            rw [hpages] at hp
            simp [search_series_genres, search_movies_genres, hid, h0, hpages, hp,
              PagesOutcome.toSeries, SearchOutcome.toSeries]
          · have hp := search_serie_pages_eq_movie q g.title gid server fuel 0 acc log
            rw [hpages] at hp
            simp [search_series_genres, search_movies_genres, hid, h0, hpages, hp,
              PagesOutcome.toSeries, SearchOutcome.toSeries]
        · simp only [ne_eq, Decidable.not_not] at h0
          subst h0
          simp only [search_series_genres, search_movies_genres, hid, ne_eq, not_true_eq_false,
            if_false, reduceIte]
          exact search_series_genres_eq_movies q server fuel rest acc log

/-! ### Helper lemmas about `parse_source` and the description synthesis -/

/-- Any value produced by the type table is `stream` or `download`. -/
theorem type_mapping_lookup_mem (x v : String) (h : type_mapping.lookup x = some v) :
    v = "stream" ∨ v = "download" := by
  rcases h1 : x == "mp4" with _ | _
  · rcases h2 : x == "mkv" with _ | _
    · simp [type_mapping, List.lookup, h1, h2] at h
    · simp [type_mapping, List.lookup, h1, h2] at h
      exact Or.inr h.symm
  · simp [type_mapping, List.lookup, h1] at h
    exact Or.inl h.symm

/-- Any value produced by the quality table is one of the four normalized
quality names. -/
theorem quality_mapping_lookup_mem (x v : String) (h : quality_mapping.lookup x = some v) :
    v = "Trailer" ∨ v = "480p" ∨ v = "720p" ∨ v = "1080p" := by
  rcases h1 : x == "تیزر" with _ | _
  · rcases h2 : x == "480 زیرنویس" with _ | _
    · rcases h3 : x == "720 زیرنویس" with _ | _
      · rcases h4 : x == "1080 زیرنویس" with _ | _
        · rcases h5 : x == "1080 FULLHD زیرنویس" with _ | _
          · simp [quality_mapping, List.lookup, h1, h2, h3, h4, h5] at h
          · simp [quality_mapping, List.lookup, h1, h2, h3, h4, h5] at h
            simp [h.symm]
        · simp [quality_mapping, List.lookup, h1, h2, h3, h4] at h
          simp [h.symm]
      · simp [quality_mapping, List.lookup, h1, h2, h3] at h
        simp [h.symm]
    · simp [quality_mapping, List.lookup, h1, h2] at h
      simp [h.symm]
  · simp [quality_mapping, List.lookup, h1] at h
    simp [h.symm]

/-- `(o :: l).reduceOption` unfolded through the head. -/
theorem reduceOption_cons_toList {α : Type} (o : Option α) (l : List (Option α)) :
    (o :: l).reduceOption = o.toList ++ l.reduceOption := by
  cases o <;> simp [List.reduceOption_cons_of_some, List.reduceOption_cons_of_none]

/-- `specLine` as the list it contributes. -/
theorem specLine_toList (field rendered : String) :
    (specLine field rendered).toList = if field ≠ "" then [rendered] else [] := by
  unfold specLine
  split <;> simp

/-- The specification's description synthesis coincides with the `details`
list the code builds, joined by newlines. -/
theorem specSynthDescription_eq (m : MediaItem) (gt : String) :
    specSynthDescription m gt = String.intercalate "\n" (media_details_lines m gt) := by
  unfold specSynthDescription media_details_lines
  rcases hg : m.genres with _ | l
  · simp [reduceOption_cons_toList, specLine_toList]
  · rcases l with _ | ⟨g, gs⟩
    · simp [reduceOption_cons_toList, specLine_toList]
    · simp [reduceOption_cons_toList, specLine_toList]

/-- Fixed point: re-normalizing an already-normalized type value changes
nothing. -/
theorem type_getD_idem (t : String) :
    (type_mapping.lookup (lowerString ((type_mapping.lookup (lowerString t)).getD t))).getD
        ((type_mapping.lookup (lowerString t)).getD t)
      = (type_mapping.lookup (lowerString t)).getD t := by
  rcases h : type_mapping.lookup (lowerString t) with _ | v
  · simp [h]
  · rcases type_mapping_lookup_mem _ _ h with rfl | rfl <;> rfl

/-- Fixed point: re-normalizing an already-normalized quality value changes
nothing. -/
theorem quality_getD_idem (qv : String) :
    (quality_mapping.lookup ((quality_mapping.lookup qv).getD qv)).getD
        ((quality_mapping.lookup qv).getD qv)
      = (quality_mapping.lookup qv).getD qv := by
  rcases h : quality_mapping.lookup qv with _ | v
  · simp [h]
  · rcases quality_mapping_lookup_mem _ _ h with rfl | rfl | rfl | rfl <;> rfl

/-! ### Claim theorems -/

/-- C4.  Source-normalizer postcondition: `parse_source` maps a bare string
`s` to `{type: unknown, quality: unknown, url: s}`; on a mapping it reads
`quality`/`type` with default `unknown` and `url` with default `''`, maps
the type case-insensitively by `mp4 → stream`, `mkv → download` with
unrecognized types passed through in their given case, maps the quality by
the five-entry table with unrecognized qualities passed through unchanged,
and over these two input shapes it always returns a record (never fails). -/
theorem claim_C4_parse_source_postcondition :
    (∀ s, parse_source (.str s) = some ⟨"unknown", "unknown", s⟩)
    ∧ (∀ fields, ∃ ps, parse_source (.dict fields) = some ps
        ∧ ps.url = dictGet fields "url" ""
        ∧ (lowerString (dictGet fields "type" "unknown") = "mp4" → ps.type = "stream")
        ∧ (lowerString (dictGet fields "type" "unknown") = "mkv" → ps.type = "download")
        ∧ (lowerString (dictGet fields "type" "unknown") ≠ "mp4" →
             lowerString (dictGet fields "type" "unknown") ≠ "mkv" →
             ps.type = dictGet fields "type" "unknown")
        ∧ (dictGet fields "quality" "unknown" = "تیزر" → ps.quality = "Trailer")
        ∧ (dictGet fields "quality" "unknown" = "480 زیرنویس" → ps.quality = "480p")
        ∧ (dictGet fields "quality" "unknown" = "720 زیرنویس" → ps.quality = "720p")
        ∧ (dictGet fields "quality" "unknown" = "1080 زیرنویس" → ps.quality = "1080p")
        ∧ (dictGet fields "quality" "unknown" = "1080 FULLHD زیرنویس" → ps.quality = "1080p")
        ∧ (dictGet fields "quality" "unknown" ≠ "تیزر" →
           dictGet fields "quality" "unknown" ≠ "480 زیرنویس" →
           dictGet fields "quality" "unknown" ≠ "720 زیرنویس" →
           dictGet fields "quality" "unknown" ≠ "1080 زیرنویس" →
           dictGet fields "quality" "unknown" ≠ "1080 FULLHD زیرنویس" →
           ps.quality = dictGet fields "quality" "unknown")) := by
  constructor
  · intro s
    rfl
  · intro fields
    refine ⟨_, rfl, rfl, ?_, ?_, ?_, ?_, ?_, ?_, ?_, ?_, ?_⟩
    · intro h
      show (type_mapping.lookup (lowerString (dictGet fields "type" "unknown"))).getD _ = _
      rw [h]
      rfl
    · intro h
      show (type_mapping.lookup (lowerString (dictGet fields "type" "unknown"))).getD _ = _
      rw [h]
      rfl
    · intro h1 h2
      show (type_mapping.lookup (lowerString (dictGet fields "type" "unknown"))).getD _ = _
      have hb1 : (lowerString (dictGet fields "type" "unknown") == "mp4") = false :=
        beq_eq_false_iff_ne.mpr h1
      have hb2 : (lowerString (dictGet fields "type" "unknown") == "mkv") = false :=
        beq_eq_false_iff_ne.mpr h2
      have hnone : type_mapping.lookup (lowerString (dictGet fields "type" "unknown")) = none := by
        simp [type_mapping, List.lookup, hb1, hb2]
      rw [hnone]
      rfl
    · intro h
      show (quality_mapping.lookup (dictGet fields "quality" "unknown")).getD _ = _
      rw [h]
      rfl
    · intro h
      show (quality_mapping.lookup (dictGet fields "quality" "unknown")).getD _ = _
      rw [h]
      rfl
    · intro h
      show (quality_mapping.lookup (dictGet fields "quality" "unknown")).getD _ = _
      rw [h]
      rfl
    · intro h
      show (quality_mapping.lookup (dictGet fields "quality" "unknown")).getD _ = _
      rw [h]
      rfl
    · intro h
      show (quality_mapping.lookup (dictGet fields "quality" "unknown")).getD _ = _
      rw [h]
      rfl
    · intro h1 h2 h3 h4 h5
      show (quality_mapping.lookup (dictGet fields "quality" "unknown")).getD _ = _
      have hb1 : (dictGet fields "quality" "unknown" == "تیزر") = false :=
        beq_eq_false_iff_ne.mpr h1
      have hb2 : (dictGet fields "quality" "unknown" == "480 زیرنویس") = false :=
        beq_eq_false_iff_ne.mpr h2
      have hb3 : (dictGet fields "quality" "unknown" == "720 زیرنویس") = false :=
        beq_eq_false_iff_ne.mpr h3
      have hb4 : (dictGet fields "quality" "unknown" == "1080 زیرنویس") = false :=
        beq_eq_false_iff_ne.mpr h4
      have hb5 : (dictGet fields "quality" "unknown" == "1080 FULLHD زیرنویس") = false :=
        beq_eq_false_iff_ne.mpr h5
      have hnone : quality_mapping.lookup (dictGet fields "quality" "unknown") = none := by
        simp [quality_mapping, List.lookup, hb1, hb2, hb3, hb4, hb5]
      rw [hnone]
      rfl

/-- Witness for C4 at concrete inputs: an uppercase `MP4` source with the
`تیزر` quality normalizes to a `stream`/`Trailer` record, and a bare string
becomes an all-unknown record. -/
theorem claim_C4_witness :
    parse_source (.dict [("type", "MP4"), ("quality", "تیزر"), ("url", "u")])
        = some ⟨"stream", "Trailer", "u"⟩
    ∧ parse_source (.str "x") = some ⟨"unknown", "unknown", "x"⟩ := by
  constructor
  · obtain ⟨ps, hps, hurl, ht1, _, _, hq1, _, _, _, _, _⟩ :=
      claim_C4_parse_source_postcondition.2 [("type", "MP4"), ("quality", "تیزر"), ("url", "u")]
    have h1 := ht1 (by rfl)
    have h2 := hq1 (by rfl)
    have h3 : ps.url = "u" := hurl
    rw [hps]
    cases ps
    simp_all
  · exact claim_C4_parse_source_postcondition.1 "x"

/-- C5.  Media-extractor description postcondition: a supplied (non-empty)
description is returned verbatim; otherwise the description is the
spec-ordered synthesis of exactly the present-and-non-empty fields.  The
closed conjunct checks the spec's example: an item carrying only
`year = "2020"` and `country = "Iran"` yields a description containing
`2020` before `Iran` with no rating line. -/
theorem claim_C5_description_postcondition :
    (∀ (m : MediaItem) (mt gt : String) (r : MediaResult),
        extract_media_details (some m) mt gt = some r →
        (m.description ≠ "" → r.description = m.description)
        ∧ (m.description = "" → r.description = specSynthDescription m gt))
    ∧ (∃ (a b c : String) (r : MediaResult),
        extract_media_details (some { year := "2020", country := "Iran" }) "Movie" "" = some r
        ∧ r.description = a ++ "2020" ++ b ++ "Iran" ++ c
        ∧ strContains r.description "امتیاز" = false) := by
  constructor
  · intro m mt gt r h
    simp only [extract_media_details] at h
    injection h with h'
    subst h'
    constructor
    · intro hne
      simp [hne]
    · intro heq
      simp only [heq, ne_eq, not_true_eq_false, if_false, reduceIte]
      rw [specSynthDescription_eq]
      by_cases hd : media_details_lines m gt = []
      · rw [hd]
        simp [String.intercalate]
      · simp [hd]
  · exact ⟨"سال تولید: ", "\nمحصول: ", "", _, rfl, by rfl, by rfl⟩

/-- Witness for C5 at a concrete input: a supplied description is returned
verbatim and synthesis matches the spec for an item with no description. -/
theorem claim_C5_witness :
    (∃ r, extract_media_details (some { description := "already here", year := "2020" })
        "Movie" "g" = some r ∧ r.description = "already here")
    ∧ (∃ r, extract_media_details (some { year := "2020" }) "Movie" "g" = some r
        ∧ r.description = specSynthDescription { year := "2020" } "g") := by
  constructor
  · refine ⟨_, rfl, ?_⟩
    exact (claim_C5_description_postcondition.1 { description := "already here", year := "2020" }
      "Movie" "g" _ rfl).1 (by decide)
  · refine ⟨_, rfl, ?_⟩
    exact (claim_C5_description_postcondition.1 { year := "2020" } "Movie" "g" _ rfl).2 rfl

/-- Reading back the `type` key of the dict `parse_source` returns. -/
theorem dictGet_raw_type (t q u : String) :
    dictGet [("type", t), ("quality", q), ("url", u)] "type" "unknown" = t := rfl

/-- Reading back the `quality` key of the dict `parse_source` returns. -/
theorem dictGet_raw_quality (t q u : String) :
    dictGet [("type", t), ("quality", q), ("url", u)] "quality" "unknown" = q := rfl

/-- Reading back the `url` key of the dict `parse_source` returns. -/
theorem dictGet_raw_url (t q u : String) :
    dictGet [("type", t), ("quality", q), ("url", u)] "url" "" = u := rfl

/-- C6.  Normalization is idempotent: feeding a `parse_source` result (as
the dict Python returns) back through `parse_source` yields the same
record. -/
theorem claim_C6_parse_source_idempotent (s : RawSource) (ps : ParsedSource)
    (h : parse_source s = some ps) :
    parse_source ps.toRaw = some ps := by
  cases s with
  | str v =>
      simp only [parse_source] at h
      injection h with h'
      subst h'
      rfl
  | dict fields =>
      simp only [parse_source] at h
      injection h with h'
      subst h'
      simp only [ParsedSource.toRaw, parse_source, dictGet_raw_type, dictGet_raw_quality,
        dictGet_raw_url, type_getD_idem, quality_getD_idem]
  | null => simp [parse_source] at h
  | int n => simp [parse_source] at h
  | list l => simp [parse_source] at h
  | bool b => simp [parse_source] at h

/-- Witness for C6 at a concrete input: normalizing the normalized form of
an `mp4`/`تیزر` source is a no-op. -/
theorem claim_C6_witness :
    parse_source (ParsedSource.toRaw ⟨"stream", "Trailer", "u"⟩)
      = some ⟨"stream", "Trailer", "u"⟩ :=
  claim_C6_parse_source_idempotent
    (.dict [("type", "mp4"), ("quality", "تیزر"), ("url", "u")]) ⟨"stream", "Trailer", "u"⟩ rfl

/-- C7 counterexample.  The claim says `load_json_data` fails whenever a
reference document is malformed, malformed meaning not parseable as the
`{data: [...]}` envelope.  The genres document `{"foo": 1}` is valid JSON
but is not that envelope, yet `load_json_data` succeeds, defaulting the
missing `data` member to the empty list — so the claimed failure condition
is too strong. -/
theorem claim_C7_counterexample :
    load_json_data (some (some (.obj [("foo", .num 1)])))
        (some (some (.obj [("data", .arr [])])))
      = .ok (.arr [], .arr [])
    ∧ ∀ e, load_json_data (some (some (.obj [("foo", .num 1)])))
        (some (some (.obj [("data", .arr [])]))) ≠ .error e := by
  constructor
  · rfl
  · intro e h
    simp [load_json_data] at h

/-- C7 amended.  `load_json_data` fails exactly when a reference document is
missing, not valid JSON, or parses to a non-object; when both documents are
JSON objects it succeeds and returns each object's `data` member, with the
empty list as default — without validating the envelope shape further. -/
theorem claim_C7_load_json_data_amended (gd cd : RefDoc) :
    ((∃ p, load_json_data gd cd = .ok p)
      ↔ (∃ gfields, gd = some (some (.obj gfields)))
        ∧ (∃ cfields, cd = some (some (.obj cfields))))
    ∧ (∀ gfields cfields,
        load_json_data (some (some (.obj gfields))) (some (some (.obj cfields)))
          = .ok ((gfields.lookup "data").getD (.arr []),
                 (cfields.lookup "data").getD (.arr []))) := by
  constructor
  · constructor
    · rintro ⟨p, hp⟩
      rcases gd with _ | g
      · simp [load_json_data] at hp
      · rcases g with _ | gv
        · simp [load_json_data] at hp
        · cases gv with
          | obj gfields =>
              rcases cd with _ | c
              · simp [load_json_data] at hp
              · rcases c with _ | cv
                · simp [load_json_data] at hp
                · cases cv with
                  | obj cfields => exact ⟨⟨gfields, rfl⟩, ⟨cfields, rfl⟩⟩
                  | null => simp [load_json_data] at hp
                  | bool b => simp [load_json_data] at hp
                  | num n => simp [load_json_data] at hp
                  | str v => simp [load_json_data] at hp
                  | arr l => simp [load_json_data] at hp
          | null => simp [load_json_data] at hp
          | bool b => simp [load_json_data] at hp
          | num n => simp [load_json_data] at hp
          | str v => simp [load_json_data] at hp
          | arr l => simp [load_json_data] at hp
    · rintro ⟨⟨gfields, rfl⟩, ⟨cfields, rfl⟩⟩
      exact ⟨_, rfl⟩
  · intro gfields cfields
    rfl

/-- C8.  `country_id` noninterference: the `country_id` argument of
`search_movies` and `search_series` is never read, so for any two values
(including `None`) the whole call outcome — both the returned result
sequence and the request log, which determines the fetched URLs — is
identical. -/
theorem claim_C8_country_id_noninterference (q : String) (gid c1 c2 : Option Int)
    (load : Option (List Genre)) (server : Server) (fuel : Nat) :
    search_movies q gid c1 load server fuel = search_movies q gid c2 load server fuel
    ∧ search_series q gid c1 load server fuel = search_series q gid c2 load server fuel :=
  ⟨rfl, rfl⟩

/-- C9.  `search_series` is `search_movies` with the media type fixed to
`'Series'`: on the same oracle of per-(genre, page) responses it returns
the same call outcome with every result retyped to `'Series'` and the very
same request log (each logged pair is fetched through `serie_search_url`
instead of `movie_search_url`); `seriesRetype` changes only the `type`
field. -/
theorem claim_C9_series_is_movies_retyped (q : String) (gid cid : Option Int)
    (load : Option (List Genre)) (server : Server) (fuel : Nat) :
    search_series q gid cid load server fuel
      = (search_movies q gid cid load server fuel).toSeries
    ∧ (∀ r : MediaResult, seriesRetype r
        = { title := r.title, year := r.year, genre := r.genre, type := "Series",
            sources := r.sources, poster := r.poster, description := r.description }) := by
  constructor
  · cases load with
    | none => rfl
    | some gs =>
        simp only [search_series, search_movies]
        have h := search_series_genres_eq_movies q server fuel (gs.filter (genreMatches gid)) [] []
        simp only [List.map_nil] at h
        rw [h]
        cases hout : search_movies_genres q server fuel (gs.filter (genreMatches gid)) [] [] <;>
          simp [SearchOutcome.toSeries, SearchCallResult.toSeries]
  · intro r
    rfl

/-- C10.  For any raw source value that is neither a string nor a mapping —
`None`, an integer, a list, a boolean — `parse_source` returns `None`, and
the HTML renderer's per-source loop skips such a source entirely. -/
theorem claim_C10_parse_source_other_shapes :
    parse_source .null = none
    ∧ (∀ n, parse_source (.int n) = none)
    ∧ (∀ l, parse_source (.list l) = none)
    ∧ (∀ b, parse_source (.bool b) = none)
    ∧ (∀ (s : RawSource) (rest : List RawSource), parse_source s = none →
        sources_section (s :: rest) = sources_section rest) := by
  refine ⟨rfl, fun n => rfl, fun l => rfl, fun b => rfl, fun s rest h => ?_⟩
  simp [sources_section, List.foldl_cons, h]

/-- Witness for C10 at a concrete input: a `None` source contributes
nothing to the rendered sources block. -/
theorem claim_C10_witness :
    sources_section [RawSource.null, RawSource.str "u"] = sources_section [RawSource.str "u"] :=
  claim_C10_parse_source_other_shapes.2.2.2.2 RawSource.null [RawSource.str "u"] rfl

/-- C1.  Exact-match short-circuit: when a page holds an item whose title
equals the query case-insensitively (after an exact-match-free prefix and
with arbitrary further items), the page loop appends the prefix's substring
matches and the exact item's record to the results accumulated so far —
from earlier genres and pages — and immediately returns them.  Neither the
later items of the page (`post` is unconstrained and absent from the
result) nor any later page (the log gains only this page) nor, per the
genre-level conjuncts, any remaining genre (`rest` is unconstrained) is
examined.  Movie and series sides are stated in parallel. -/
theorem claim_C1_exact_match_short_circuit (q gt : String) (gid : Int) (server : Server)
    (fuel page : Nat) (pre post : List (Option MediaItem)) (m : MediaItem)
    (hfuel : 0 < fuel)
    (hsrv : server gid page = .success 200 (some (pre ++ some m :: post)))
    (hm : lowerString q = lowerString m.title) :
    (∀ (acc : List MediaResult) (log : List (Int × Nat)),
      (scan_movie_items q gt pre []).2 = false →
      ∃ d, extract_media_details (some m) "Movie" gt = some d ∧
        search_movie_pages q gt gid server fuel page acc log
          = .finished (acc ++ (scan_movie_items q gt pre []).1 ++ [d]) (log ++ [(gid, page)]))
    ∧ (∀ (acc : List MediaResult) (log : List (Int × Nat)),
      (scan_serie_items q gt pre []).2 = false →
      ∃ d, extract_media_details (some m) "Series" gt = some d ∧
        search_serie_pages q gt gid server fuel page acc log
          = .finished (acc ++ (scan_serie_items q gt pre []).1 ++ [d]) (log ++ [(gid, page)]))
    ∧ (∀ (g : Genre) (rest : List Genre) (acc : List MediaResult) (log : List (Int × Nat)),
        g.id = some gid → gid ≠ 0 → page = 0 →
        (scan_movie_items q g.title pre []).2 = false →
        ∃ d, extract_media_details (some m) "Movie" g.title = some d ∧
          search_movies_genres q server fuel (g :: rest) acc log
            = .done (acc ++ (scan_movie_items q g.title pre []).1 ++ [d])
                (log ++ [(gid, 0)]))
    ∧ (∀ (g : Genre) (rest : List Genre) (acc : List MediaResult) (log : List (Int × Nat)),
        g.id = some gid → gid ≠ 0 → page = 0 →
        (scan_serie_items q g.title pre []).2 = false →
        ∃ d, extract_media_details (some m) "Series" g.title = some d ∧
          search_series_genres q server fuel (g :: rest) acc log
            = .done (acc ++ (scan_serie_items q g.title pre []).1 ++ [d])
                (log ++ [(gid, 0)])) := by
  have hmb : (lowerString q == lowerString m.title) = true := beq_iff_eq.mpr hm
  refine ⟨?_, ?_, ?_, ?_⟩
  · intro acc log hpre
    exact ⟨_, rfl, search_movie_pages_exact q gt gid server fuel page acc log pre post m _
      hfuel hsrv hpre hmb rfl⟩
  · intro acc log hpre
    exact ⟨_, rfl, search_serie_pages_exact q gt gid server fuel page acc log pre post m _
      hfuel hsrv hpre hmb rfl⟩
  · intro g rest acc log hg h0 hpage hpre
    subst hpage
    refine ⟨_, rfl, ?_⟩
    exact search_movies_genres_step_finished q server fuel g rest gid acc _ log _ hg h0
      (search_movie_pages_exact q g.title gid server fuel 0 acc log pre post m _
        hfuel hsrv hpre hmb rfl)
  · intro g rest acc log hg h0 hpage hpre
    subst hpage
    refine ⟨_, rfl, ?_⟩
    exact search_series_genres_step_finished q server fuel g rest gid acc _ log _ hg h0
      (search_serie_pages_exact q g.title gid server fuel 0 acc log pre post m _
        hfuel hsrv hpre hmb rfl)

/-- Witness for C1: with a substring match followed by an exact match on
genre 1 page 0, the movie search returns both records at once, never
touching the later item, later pages, or the second genre (whose pages
would raise). -/
theorem claim_C1_witness :
    ∃ d, extract_media_details (some { title := "ABC" }) "Movie" "A" = some d ∧
      search_movies_genres "abc" witnessServerC1 1
          [{ id := some 1, title := "A" }, { id := some 2, title := "B" }] [] []
        = .done ([] ++ (scan_movie_items "abc" "A" [some { title := "xabcx" }] []).1 ++ [d])
            ([] ++ [(1, 0)]) := by
  have h := claim_C1_exact_match_short_circuit "abc" "A" 1 witnessServerC1 1 0
    [some { title := "xabcx" }] [some { title := "later" }] { title := "ABC" }
    (by decide) (by rfl) (by rfl)
  exact h.2.2.1 { id := some 1, title := "A" } [{ id := some 2, title := "B" }] [] []
    rfl (by decide) rfl (by rfl)

/-- C2.  Per-genre pagination and error isolation.  Given `n` good pages
(status 200, non-empty items, no exact match) followed by a stopping page:
(a)/(b) the movie/series page loop for the genre requests exactly pages
`0, 1, ..., n` in order and then breaks, carrying the gathered matches;
(c)/(d) with fuel left, the loop breaks at a page — results untouched, that
single request logged — precisely when the page is empty, non-200, or
fails JSON decoding; (e)/(f) on such a break the genre loop continues with
the next candidate genre instead of aborting the search, so in particular a
500 on one genre leaves later genres searched. -/
theorem claim_C2_pagination_termination (q gt : String) (gid : Int) (server : Server)
    (n fuel : Nat) (pages : Nat → List (Option MediaItem))
    (hfuel : n < fuel)
    (hok : ∀ i, i < n → server gid i = .success 200 (some (pages i)) ∧ pages i ≠ []
      ∧ (scan_movie_items q gt (pages i) []).2 = false
      ∧ (scan_serie_items q gt (pages i) []).2 = false)
    (hstop : pageStop (server gid n)) :
    (∀ (acc : List MediaResult) (log : List (Int × Nat)),
      search_movie_pages q gt gid server fuel 0 acc log
        = .nextGenre (acc ++ movieGather q gt pages n) (log ++ pageLog gid 0 n))
    ∧ (∀ (acc : List MediaResult) (log : List (Int × Nat)),
      search_serie_pages q gt gid server fuel 0 acc log
        = .nextGenre (acc ++ serieGather q gt pages n) (log ++ pageLog gid 0 n))
    ∧ (∀ (fuel' page : Nat) (acc : List MediaResult) (log : List (Int × Nat)), 0 < fuel' →
        (search_movie_pages q gt gid server fuel' page acc log
            = .nextGenre acc (log ++ [(gid, page)])
          ↔ pageStop (server gid page)))
    ∧ (∀ (fuel' page : Nat) (acc : List MediaResult) (log : List (Int × Nat)), 0 < fuel' →
        (search_serie_pages q gt gid server fuel' page acc log
            = .nextGenre acc (log ++ [(gid, page)])
          ↔ pageStop (server gid page)))
    ∧ (∀ (g : Genre) (rest : List Genre) (acc : List MediaResult) (log : List (Int × Nat)),
        g.id = some gid → gid ≠ 0 → g.title = gt →
        search_movies_genres q server fuel (g :: rest) acc log
          = search_movies_genres q server fuel rest (acc ++ movieGather q gt pages n)
              (log ++ pageLog gid 0 n))
    ∧ (∀ (g : Genre) (rest : List Genre) (acc : List MediaResult) (log : List (Int × Nat)),
        g.id = some gid → gid ≠ 0 → g.title = gt →
        search_series_genres q server fuel (g :: rest) acc log
          = search_series_genres q server fuel rest (acc ++ serieGather q gt pages n)
              (log ++ pageLog gid 0 n)) := by
  have hrun_m : ∀ (acc : List MediaResult) (log : List (Int × Nat)),
      search_movie_pages q gt gid server fuel 0 acc log
        = .nextGenre (acc ++ movieGather q gt pages n) (log ++ pageLog gid 0 n) := by
    intro acc log
    apply search_movie_pages_run q gt gid server n pages fuel 0 acc log hfuel
    · intro i hi
      rw [Nat.zero_add]
      exact ⟨(hok i hi).1, (hok i hi).2.1, (hok i hi).2.2.1⟩
    · rw [Nat.zero_add]
      exact hstop
  have hrun_s : ∀ (acc : List MediaResult) (log : List (Int × Nat)),
      search_serie_pages q gt gid server fuel 0 acc log
        = .nextGenre (acc ++ serieGather q gt pages n) (log ++ pageLog gid 0 n) := by
    intro acc log
    apply search_serie_pages_run q gt gid server n pages fuel 0 acc log hfuel
    · intro i hi
      rw [Nat.zero_add]
      exact ⟨(hok i hi).1, (hok i hi).2.1, (hok i hi).2.2.2⟩
    · rw [Nat.zero_add]
      exact hstop
  refine ⟨hrun_m, hrun_s, ?_, ?_, ?_, ?_⟩
  · intro fuel' page acc log hf
    exact search_movie_pages_break_iff q gt gid server fuel' page acc log hf
  · intro fuel' page acc log hf
    exact search_serie_pages_break_iff q gt gid server fuel' page acc log hf
  · intro g rest acc log hg h0 htitle
    subst htitle
    exact search_movies_genres_step_next q server fuel g rest gid acc _ log _ hg h0
      (hrun_m acc log)
  · intro g rest acc log hg h0 htitle
    subst htitle
    exact search_series_genres_step_next q server fuel g rest gid acc _ log _ hg h0
      (hrun_s acc log)

/-- Witness for C2: a genre whose page sequence is [non-empty, non-empty,
empty] with no matching titles receives exactly the three requests
`(1,0), (1,1), (1,2)`, gathers nothing, and the genre loop proceeds to the
next genre. -/
theorem claim_C2_witness :
    search_movie_pages "abc" "g" 1 witnessServerC2 3 0 [] []
      = .nextGenre ([] ++ movieGather "abc" "g" (fun _ => [some { title := "zzz" }]) 2)
          ([] ++ pageLog 1 0 2)
    ∧ search_movies_genres "abc" witnessServerC2 3
          [{ id := some 1, title := "g" }, { id := some 2, title := "h" }] [] []
      = search_movies_genres "abc" witnessServerC2 3 [{ id := some 2, title := "h" }]
          ([] ++ movieGather "abc" "g" (fun _ => [some { title := "zzz" }]) 2)
          ([] ++ pageLog 1 0 2) := by
  have h := claim_C2_pagination_termination "abc" "g" 1 witnessServerC2 2 3
    (fun _ => [some { title := "zzz" }]) (by omega)
    (by
      intro i hi
      match i, hi with
      | 0, _ => exact ⟨rfl, by simp, by rfl, by rfl⟩
      | 1, _ => exact ⟨rfl, by simp, by rfl, by rfl⟩)
    (by
      show pageStop (witnessServerC2 1 2)
      show pageStop (.success 200 (some []))
      simp [pageStop])
  exact ⟨h.1 [] [], h.2.2.2.2.1 { id := some 1, title := "g" } [{ id := some 2, title := "h" }]
    [] [] rfl (by decide) rfl⟩

/-- C3.  Whole-search abort with partial results: a fetch that raises
(transport failure) ends the page loop with `finished` — the accumulated
results, including everything from earlier genres and pages, are returned
as they stand, with the failing request the last one logged; at the genre
level every remaining genre is abandoned; and at the call boundary, once
the reference data has loaded, a search call never raises — it always
returns the (possibly empty) result sequence its genre loop produced. -/
theorem claim_C3_transport_abort (q : String) (server : Server) :
    (∀ (gt : String) (gid : Int) (fuel page : Nat) (acc : List MediaResult)
        (log : List (Int × Nat)), 0 < fuel → server gid page = .netFail →
      search_movie_pages q gt gid server fuel page acc log
        = .finished acc (log ++ [(gid, page)]))
    ∧ (∀ (gt : String) (gid : Int) (fuel page : Nat) (acc : List MediaResult)
        (log : List (Int × Nat)), 0 < fuel → server gid page = .netFail →
      search_serie_pages q gt gid server fuel page acc log
        = .finished acc (log ++ [(gid, page)]))
    ∧ (∀ (g : Genre) (rest : List Genre) (gid : Int) (fuel : Nat)
        (acc : List MediaResult) (log : List (Int × Nat)),
        0 < fuel → g.id = some gid → gid ≠ 0 → server gid 0 = .netFail →
        search_movies_genres q server fuel (g :: rest) acc log
          = .done acc (log ++ [(gid, 0)]))
    ∧ (∀ (g : Genre) (rest : List Genre) (gid : Int) (fuel : Nat)
        (acc : List MediaResult) (log : List (Int × Nat)),
        0 < fuel → g.id = some gid → gid ≠ 0 → server gid 0 = .netFail →
        search_series_genres q server fuel (g :: rest) acc log
          = .done acc (log ++ [(gid, 0)]))
    ∧ (∀ (genre_id country_id : Option Int) (gs : List Genre) (fuel : Nat)
        (results : List MediaResult) (log : List (Int × Nat)),
        search_movies_genres q server fuel (gs.filter (genreMatches genre_id)) [] []
            = .done results log →
        search_movies q genre_id country_id (some gs) server fuel = .ok results log)
    ∧ (∀ (genre_id country_id : Option Int) (gs : List Genre) (fuel : Nat)
        (results : List MediaResult) (log : List (Int × Nat)),
        search_series_genres q server fuel (gs.filter (genreMatches genre_id)) [] []
            = .done results log →
        search_series q genre_id country_id (some gs) server fuel = .ok results log)
    ∧ (∀ (genre_id country_id : Option Int) (gs : List Genre) (fuel : Nat),
        search_movies q genre_id country_id (some gs) server fuel ≠ .raised)
    ∧ (∀ (genre_id country_id : Option Int) (gs : List Genre) (fuel : Nat),
        search_series q genre_id country_id (some gs) server fuel ≠ .raised) := by
  refine ⟨?_, ?_, ?_, ?_, ?_, ?_, ?_, ?_⟩
  · intro gt gid fuel page acc log hf hsrv
    exact search_movie_pages_netFail q gt gid server fuel page acc log hf hsrv
  · intro gt gid fuel page acc log hf hsrv
    exact search_serie_pages_netFail q gt gid server fuel page acc log hf hsrv
  · intro g rest gid fuel acc log hf hg h0 hsrv
    exact search_movies_genres_step_finished q server fuel g rest gid acc _ log _ hg h0
      (search_movie_pages_netFail q g.title gid server fuel 0 acc log hf hsrv)
  · intro g rest gid fuel acc log hf hg h0 hsrv
    exact search_series_genres_step_finished q server fuel g rest gid acc _ log _ hg h0
      (search_serie_pages_netFail q g.title gid server fuel 0 acc log hf hsrv)
  · intro genre_id country_id gs fuel results log h
    simp [search_movies, h]
  · intro genre_id country_id gs fuel results log h
    simp [search_series, h]
  · intro genre_id country_id gs fuel
    cases hout : search_movies_genres q server fuel (gs.filter (genreMatches genre_id)) [] [] <;>
      simp [search_movies, hout]
  · intro genre_id country_id gs fuel
    cases hout : search_series_genres q server fuel (gs.filter (genreMatches genre_id)) [] [] <;>
      simp [search_series, hout]

/-- Witness for C3: with a server on which every fetch raises, the search
over genres 1 and 2 returns the empty partial result after the very first
request, abandoning the second genre, and the call does not raise. -/
theorem claim_C3_witness :
    search_movies_genres "q" witnessServerC3 1
        [{ id := some 1, title := "g" }, { id := some 2, title := "h" }] [] []
      = .done [] ([] ++ [(1, 0)])
    ∧ search_movies "q" none none
        (some [{ id := some 1, title := "g" }, { id := some 2, title := "h" }])
        witnessServerC3 1 ≠ .raised := by
  have h := claim_C3_transport_abort "q" witnessServerC3
  exact ⟨h.2.2.1 { id := some 1, title := "g" } [{ id := some 2, title := "h" }] 1 1 [] []
      (by omega) rfl (by decide) rfl,
    h.2.2.2.2.2.2.1 none none [{ id := some 1, title := "g" }, { id := some 2, title := "h" }] 1⟩
